import Mathlib

/-!
PulseAudio device enumeration example: a synchronous loop over callbacks.

A shallow embedding of `example.cpp`.  The process-wide variable `loopControl`
becomes a field of an explicit `World` that every function threads through.
The PulseAudio library itself is not part of the program: what the main loop
dispatches during one `pa_mainloop_iterate` call is given from outside as a
`PumpStep`, and a run of the program is driven by a list of such steps.

Two ghost fields are added to the world so that properties about "who wrote
the gate" and "was the business logic reached" can be stated:
* `gateWrites` records every assignment to `loopControl`, with its author;
* `businessLogic` records every arrival at a `// Business logic` comment.
Neither field is ever read by the embedded code.
-/

namespace PulseExample

/-! ## Data model -/

/-- Meaning of the `isLast` argument (`enum class PulseAudioIsLastMeaning`). -/
inductive PulseAudioIsLastMeaning
  | Error
  | RealDevice
  | PreviousDeviceWasLastReal
deriving DecidableEq, Repr

/-- The gate (`enum class PulseAudioLoopControl`). -/
inductive PulseAudioLoopControl
  | Stop
  | Run
deriving DecidableEq, Repr

/-- Modelled from the spec: the context states of the client library
(`pa_context_state_t` of `<pulse/def.h>`), the finite set that
`pa_context_get_state` can report. -/
inductive pa_context_state_t
  | PA_CONTEXT_UNCONNECTED
  | PA_CONTEXT_CONNECTING
  | PA_CONTEXT_AUTHORIZING
  | PA_CONTEXT_SETTING_NAME
  | PA_CONTEXT_READY
  | PA_CONTEXT_FAILED
  | PA_CONTEXT_TERMINATED
deriving DecidableEq, Repr

/-- Modelled from the spec: a property list is a string-keyed dictionary of
string values (`pa_proplist` of the client library), kept as an association
list in which the first entry for a key is the one that counts. -/
abbrev pa_proplist := List (String × String)

/-- Modelled from the spec: the membership test of the property list,
`pa_proplist_contains`: 1 when the key has an entry, 0 when it has none. -/
def pa_proplist_contains (p : pa_proplist) (key : String) : Int :=
  if (p.lookup key).isSome then 1 else 0

/-- Modelled from the spec: the string-valued read of the property list,
`pa_proplist_gets`: the stored string, or the null pointer (`none`) when the
key has no entry. -/
def pa_proplist_gets (p : pa_proplist) (key : String) : Option String :=
  p.lookup key

/-- Modelled from the spec: the sink record of the client library
(`pa_sink_info`), reduced to the fields the spec names. -/
structure pa_sink_info where
  name : String
  index : Nat
  proplist : pa_proplist
deriving DecidableEq, Repr

/-- Modelled from the spec: the source record of the client library
(`pa_source_info`), reduced to the fields the spec names. -/
structure pa_source_info where
  name : String
  index : Nat
  proplist : pa_proplist
deriving DecidableEq, Repr

/-- The argument `const T* i` of the templated `deviceCallback`, together with
the static type `T` it was instantiated at.  The `static_assert` admits exactly
these two instantiations; the pointer may be null (`none`). -/
inductive DeviceInfoPtr
  | source (i : Option pa_source_info)
  | sink (i : Option pa_sink_info)
deriving DecidableEq, Repr

/-- Ghost: the places marked `// Business logic` in the source, with the
pointer that was in scope when control arrived there. -/
inductive BusinessLogicPoint
  | templateSource (i : Option pa_source_info)
  | templateSink (i : Option pa_sink_info)
  | overloadSource (i : Option pa_source_info)
deriving DecidableEq, Repr

/-- Ghost: who performed an assignment to `loopControl`. -/
inductive Actor
  | callback
  | driver
deriving DecidableEq, Repr

/-- Ghost: one assignment to `loopControl`. -/
structure GateWrite where
  actor : Actor
  value : PulseAudioLoopControl
deriving DecidableEq, Repr

/-- The mutable state of the program: the global `loopControl` and the two
ghost histories. -/
structure World where
  loopControl : PulseAudioLoopControl
  gateWrites : List GateWrite
  businessLogic : List BusinessLogicPoint
deriving DecidableEq, Repr

/-- The state at program start: `static PulseAudioLoopControl loopControl = Run`. -/
def World.initial : World :=
  { loopControl := .Run, gateWrites := [], businessLogic := [] }

/-- The assignment `loopControl = v;` performed by `who`. -/
def setLoopControl (who : Actor) (v : PulseAudioLoopControl) (w : World) : World :=
  { w with loopControl := v, gateWrites := w.gateWrites ++ [⟨who, v⟩] }

/-- Ghost: control arrives at a `// Business logic` comment. -/
def reachBusinessLogic (p : BusinessLogicPoint) (w : World) : World :=
  { w with businessLogic := w.businessLogic ++ [p] }

/-! ## The functions of `example.cpp` -/

/-- The classifier `getIsLastMeaning( const int isLast )`. -/
def getIsLastMeaning (isLast : Int) : PulseAudioIsLastMeaning :=
  if isLast < 0 then .Error
  else if isLast > 0 then .PreviousDeviceWasLastReal
  else .RealDevice

/-- The template `deviceCallback<T>( const T* i, const int isLast )`. -/
def deviceCallback (i : DeviceInfoPtr) (isLast : Int) (w : World) : World :=
  let deviceState := getIsLastMeaning isLast
  if deviceState = .PreviousDeviceWasLastReal then
    setLoopControl .callback .Stop w
  else if deviceState = .Error then
    w
  else
    match i with
    | .source p => reachBusinessLogic (.templateSource p) w
    | .sink p => reachBusinessLogic (.templateSink p) w

/-- The string returned by `getDeviceName( pa_proplist* p )` for a non-null
`p`; `none` stands for `std::string::assign` being handed a null pointer.
The test `if ( !p )` of the source has an empty body. -/
def getDeviceName (p : pa_proplist) : Option String :=
  let deviceDescription := "device.description"
  if pa_proplist_contains p deviceDescription = 0 then
    some "ERROR"
  else
    match pa_proplist_gets p deviceDescription with
    | some s => some s
    | none => none

/-- The overload `deviceCallback( const pa_source_info* i, const int isLast )`. -/
def deviceCallback_pa_source_info (i : Option pa_source_info) (isLast : Int)
    (w : World) : World :=
  let deviceState := getIsLastMeaning isLast
  if deviceState = .PreviousDeviceWasLastReal then
    setLoopControl .callback .Stop w
  else if deviceState = .Error then
    -- this branch holds a comment only: control goes on to the business logic
    reachBusinessLogic (.overloadSource i) w
  else
    reachBusinessLogic (.overloadSource i) w

/-- The sink callback `setOutputDevicesCallback( c, i, isLast, userdata )`.
Its call `deviceCallback( i, isLast )` has a `const pa_sink_info*` argument, so
overload resolution picks the template at `T = pa_sink_info`. -/
def setOutputDevicesCallback (i : Option pa_sink_info) (isLast : Int) (w : World) : World :=
  deviceCallback (.sink i) isLast w

/-- The state callback `stateCallbackFunction( c, userdata )`; `observed` is what
`pa_context_get_state( c )` returns. -/
def stateCallbackFunction (observed : pa_context_state_t) (w : World) : World :=
  match observed with
  | .PA_CONTEXT_TERMINATED => w
  | .PA_CONTEXT_CONNECTING => w
  | .PA_CONTEXT_AUTHORIZING => w
  | .PA_CONTEXT_SETTING_NAME => w
  | .PA_CONTEXT_UNCONNECTED => w
  | .PA_CONTEXT_FAILED => w
  | .PA_CONTEXT_READY => setLoopControl .callback .Stop w

/-! ## The event pump -/

/-- A callback invocation made by the library: the two callbacks that `main`
registers. -/
inductive Event
  | stateChange (observed : pa_context_state_t)
  | sinkInfo (i : Option pa_sink_info) (isLast : Int)
deriving DecidableEq, Repr

/-- What one call of `pa_mainloop_iterate` does: the callbacks it dispatches,
in order (possibly none), and the integer it returns (negative on failure). -/
structure PumpStep where
  events : List Event
  result : Int
deriving DecidableEq, Repr

/-- The library invokes the registered callback for an event. -/
def Event.dispatch (e : Event) (w : World) : World :=
  match e with
  | .stateChange s => stateCallbackFunction s w
  | .sinkInfo i isLast => setOutputDevicesCallback i isLast w

/-- The library invokes the callbacks for a run of events, in order. -/
def dispatchAll (evs : List Event) (w : World) : World :=
  evs.foldl (fun acc e => e.dispatch acc) w

/-- One call `pa_mainloop_iterate( mainLoop, 1, nullptr )`: the world after the
dispatched callbacks, and the returned integer. -/
def pa_mainloop_iterate (s : PumpStep) (w : World) : World × Int :=
  (dispatchAll s.events w, s.result)

/-- The driver `customPulseLoop()`, run against the steps the pump will take.
The result is the world on return with the steps not yet taken; `none` when
the loop never ends: the gate is still `Run` and the pump has nothing more to
deliver, so the blocking call never comes back. -/
def customPulseLoop : World → List PumpStep → Option (World × List PumpStep)
  | w, [] =>
    if w.loopControl = .Run then none
    else some (setLoopControl .driver .Run w, [])
  | w, s :: rest =>
    if w.loopControl = .Run then
      -- the value returned by the pump is discarded
      customPulseLoop (pa_mainloop_iterate s w).1 rest
    else some (setLoopControl .driver .Run w, s :: rest)

/-- The world after the pump has taken all the given steps, one after the
other (used to name intermediate states of a run). -/
def pumpAll (steps : List PumpStep) (w : World) : World :=
  steps.foldl (fun acc s => (pa_mainloop_iterate s acc).1) w

/-- The steps with every returned integer replaced through `f`: the same
callbacks, other results. -/
def withResults (f : PumpStep → Int) (steps : List PumpStep) : List PumpStep :=
  steps.map (fun s => { s with result := f s })

/-! ## Helper lemmas -/

theorem dispatchAll_nil (w : World) : dispatchAll [] w = w := rfl

theorem dispatchAll_cons (e : Event) (evs : List Event) (w : World) :
    dispatchAll (e :: evs) w = dispatchAll evs (e.dispatch w) := rfl

theorem pumpAll_nil (w : World) : pumpAll [] w = w := rfl

theorem pumpAll_cons (s : PumpStep) (steps : List PumpStep) (w : World) :
    pumpAll (s :: steps) w = pumpAll steps (pa_mainloop_iterate s w).1 := rfl

theorem loopControl_cases (c : PulseAudioLoopControl) : c = .Run ∨ c = .Stop := by
  cases c
  · exact Or.inr rfl
  · exact Or.inl rfl

theorem getIsLastMeaning_neg {isLast : Int} (h : isLast < 0) :
    getIsLastMeaning isLast = .Error := by
  simp [getIsLastMeaning, h]

theorem getIsLastMeaning_pos {isLast : Int} (h : 0 < isLast) :
    getIsLastMeaning isLast = .PreviousDeviceWasLastReal := by
  have h2 : ¬ isLast < 0 := by omega
  simp [getIsLastMeaning, h, h2]

theorem getIsLastMeaning_zero : getIsLastMeaning 0 = .RealDevice := by
  simp [getIsLastMeaning]

/-- A driver that finds the gate at `Stop` resets it and returns at once. -/
theorem customPulseLoop_of_stop (w : World) (sched : List PumpStep)
    (h : w.loopControl = .Stop) :
    customPulseLoop w sched = some (setLoopControl .driver .Run w, sched) := by
  cases sched <;> simp [customPulseLoop, h]

/-- A driver that finds the gate at `Run` takes the next step of the pump. -/
theorem customPulseLoop_of_run (w : World) (s : PumpStep) (rest : List PumpStep)
    (h : w.loopControl = .Run) :
    customPulseLoop w (s :: rest) = customPulseLoop (pa_mainloop_iterate s w).1 rest := by
  simp [customPulseLoop, h]

/-- No callback moves the gate from `Stop` to `Run`. -/
theorem dispatch_keeps_stop (e : Event) (w : World) (h : w.loopControl = .Stop) :
    (e.dispatch w).loopControl = .Stop := by
  cases e with
  | stateChange s => cases s <;> simp [Event.dispatch, stateCallbackFunction, setLoopControl, h]
  | sinkInfo i isLast =>
    simp only [Event.dispatch, setOutputDevicesCallback, deviceCallback]
    split
    · rfl
    · split
      · exact h
      · exact h

/-- Every write to the gate made by a callback is a write of `Stop`. -/
theorem dispatch_gateWrites (e : Event) (w : World) :
    ∃ mid, (e.dispatch w).gateWrites = w.gateWrites ++ mid ∧
      ∀ g ∈ mid, g = (⟨.callback, .Stop⟩ : GateWrite) := by
  cases e with
  | stateChange s =>
    cases s
    case PA_CONTEXT_READY =>
      exact ⟨[⟨.callback, .Stop⟩], rfl, by simp⟩
    all_goals exact ⟨[], by simp [Event.dispatch, stateCallbackFunction], by simp⟩
  | sinkInfo i isLast =>
    simp only [Event.dispatch, setOutputDevicesCallback, deviceCallback]
    split
    · exact ⟨[⟨.callback, .Stop⟩], rfl, by simp⟩
    · split
      · exact ⟨[], by simp, by simp⟩
      · exact ⟨[], by simp [reachBusinessLogic], by simp⟩

theorem dispatchAll_gateWrites (evs : List Event) (w : World) :
    ∃ mid, (dispatchAll evs w).gateWrites = w.gateWrites ++ mid ∧
      ∀ g ∈ mid, g = (⟨.callback, .Stop⟩ : GateWrite) := by
  induction evs generalizing w with
  | nil => exact ⟨[], by simp [dispatchAll_nil], by simp⟩
  | cons e evs ih =>
    obtain ⟨m1, h1, hm1⟩ := dispatch_gateWrites e w
    obtain ⟨m2, h2, hm2⟩ := ih (e.dispatch w)
    refine ⟨m1 ++ m2, ?_, ?_⟩
    · rw [dispatchAll_cons, h2, h1, List.append_assoc]
    · intro g hg
      rcases List.mem_append.mp hg with hg | hg
      · exact hm1 g hg
      · exact hm2 g hg

/-- A run of callbacks that takes the gate from `Run` to `Stop` contains the
callback that did it. -/
theorem dispatchAll_trip (evs : List Event) (w : World) (hw : w.loopControl = .Run)
    (h : (dispatchAll evs w).loopControl = .Stop) :
    ∃ evs1 e evs2, evs = evs1 ++ e :: evs2 ∧
      (dispatchAll evs1 w).loopControl = .Run ∧
      (e.dispatch (dispatchAll evs1 w)).loopControl = .Stop := by
  induction evs generalizing w with
  | nil => rw [dispatchAll_nil, hw] at h; cases h
  | cons e evs ih =>
    rcases loopControl_cases (e.dispatch w).loopControl with hr | hs
    · obtain ⟨evs1, e2, evs2, he, h1, h2⟩ := ih (e.dispatch w) hr h
      exact ⟨e :: evs1, e2, evs2, by rw [he]; rfl, h1, h2⟩
    · exact ⟨[], e, evs, rfl, hw, hs⟩

/-- Callbacks that leave the gate alone never let the driver return. -/
theorem customPulseLoop_quiet (sched : List PumpStep) (w : World)
    (hq : ∀ s ∈ sched, ∀ e ∈ s.events, ∀ v : World, (e.dispatch v).loopControl = v.loopControl)
    (hw : w.loopControl = .Run) :
    customPulseLoop w sched = none := by
  induction sched generalizing w with
  | nil => simp [customPulseLoop, hw]
  | cons s rest ih =>
    rw [customPulseLoop_of_run w s rest hw]
    apply ih
    · intro s2 hs2
      exact hq s2 (List.mem_cons_of_mem _ hs2)
    · have hs := hq s (List.mem_cons_self _ _)
      have key : ∀ (evs : List Event) (v : World),
          (∀ e ∈ evs, ∀ v : World, (e.dispatch v).loopControl = v.loopControl) →
          (dispatchAll evs v).loopControl = v.loopControl := by
        intro evs
        induction evs with
        | nil => intro v _; rfl
        | cons e evs ihe =>
          intro v hv
          rw [dispatchAll_cons, ihe (e.dispatch v) (fun e2 he2 => hv e2 (List.mem_cons_of_mem _ he2)),
            hv e (List.mem_cons_self _ _)]
      show (dispatchAll s.events w).loopControl = .Run
      rw [key s.events w hs, hw]

/-- The driver returns only after a step of the pump that took the gate from
`Run` to `Stop`, and what it returns is that world with the gate reset. -/
theorem customPulseLoop_split (sched : List PumpStep) (w w2 : World) (rest : List PumpStep)
    (hw : w.loopControl = .Run) (h : customPulseLoop w sched = some (w2, rest)) :
    ∃ pre s, sched = pre ++ s :: rest ∧
      (pumpAll pre w).loopControl = .Run ∧
      (pa_mainloop_iterate s (pumpAll pre w)).1.loopControl = .Stop ∧
      w2 = setLoopControl .driver .Run (pa_mainloop_iterate s (pumpAll pre w)).1 := by
  induction sched generalizing w with
  | nil => simp [customPulseLoop, hw] at h
  | cons s tl ih =>
    rw [customPulseLoop_of_run w s tl hw] at h
    rcases loopControl_cases (pa_mainloop_iterate s w).1.loopControl with hr | hs
    · obtain ⟨pre, s2, he, h1, h2, h3⟩ := ih (pa_mainloop_iterate s w).1 hr h
      exact ⟨s :: pre, s2, by rw [he]; rfl, h1, h2, h3⟩
    · rw [customPulseLoop_of_stop _ tl hs] at h
      simp only [Option.some.injEq, Prod.mk.injEq] at h
      exact ⟨[], s, by rw [← h.2]; rfl, hw, hs, h.1.symm⟩

/-- The gate writes of a whole run of the pump are callback writes of `Stop`. -/
theorem pumpAll_gateWrites (steps : List PumpStep) (w : World) :
    ∃ mid, (pumpAll steps w).gateWrites = w.gateWrites ++ mid ∧
      ∀ g ∈ mid, g = (⟨.callback, .Stop⟩ : GateWrite) := by
  induction steps generalizing w with
  | nil => exact ⟨[], by simp [pumpAll_nil], by simp⟩
  | cons s tl ih =>
    obtain ⟨m1, h1, hm1⟩ := dispatchAll_gateWrites s.events w
    obtain ⟨m2, h2, hm2⟩ := ih (pa_mainloop_iterate s w).1
    refine ⟨m1 ++ m2, ?_, ?_⟩
    · rw [pumpAll_cons, h2]
      show (dispatchAll s.events w).gateWrites ++ m2 = _
      rw [h1, List.append_assoc]
    · intro g hg
      rcases List.mem_append.mp hg with hg | hg
      · exact hm1 g hg
      · exact hm2 g hg

theorem pumpAll_append (a b : List PumpStep) (w : World) :
    pumpAll (a ++ b) w = pumpAll b (pumpAll a w) := by
  simp [pumpAll, List.foldl_append]

/-- The integers returned by the pump have no effect on the driver. -/
theorem customPulseLoop_withResults (f : PumpStep → Int) (sched : List PumpStep) (w : World) :
    customPulseLoop w (withResults f sched)
      = (customPulseLoop w sched).map (fun r => (r.1, withResults f r.2)) := by
  induction sched generalizing w with
  | nil =>
    rcases loopControl_cases w.loopControl with h | h <;> simp [withResults, customPulseLoop, h]
  | cons s tl ih =>
    rcases loopControl_cases w.loopControl with h | h
    · have e1 : withResults f (s :: tl) = { s with result := f s } :: withResults f tl := rfl
      rw [e1, customPulseLoop_of_run w _ _ h, customPulseLoop_of_run w s tl h]
      exact ih _
    · rw [customPulseLoop_of_stop w _ h, customPulseLoop_of_stop w _ h]
      rfl

/-- Where the two device callbacks agree and where they differ: the gate they
leave is the same; the template reaches its business logic exactly for
`isLast = 0`, the overload for source records exactly for `isLast ≤ 0`. -/
theorem deviceCallback_template_vs_overload (isLast : Int) (w : World)
    (i : Option pa_sink_info) (j : Option pa_source_info) :
    (deviceCallback (.sink i) isLast w).loopControl
      = (deviceCallback_pa_source_info j isLast w).loopControl ∧
    (deviceCallback (.sink i) isLast w).businessLogic
      = (if isLast = 0 then w.businessLogic ++ [.templateSink i] else w.businessLogic) ∧
    (deviceCallback_pa_source_info j isLast w).businessLogic
      = (if isLast ≤ 0 then w.businessLogic ++ [.overloadSource j] else w.businessLogic) := by
  rcases lt_trichotomy isLast 0 with h | h | h
  · have h1 : ¬ isLast = 0 := by omega
    have h2 : isLast ≤ 0 := by omega
    simp [deviceCallback, deviceCallback_pa_source_info, getIsLastMeaning_neg h, h1, h2,
      reachBusinessLogic]
  · subst h
    simp [deviceCallback, deviceCallback_pa_source_info, getIsLastMeaning_zero,
      reachBusinessLogic]
  · have h1 : ¬ isLast = 0 := by omega
    have h2 : ¬ isLast ≤ 0 := by omega
    simp [deviceCallback, deviceCallback_pa_source_info, getIsLastMeaning_pos h, h1, h2,
      setLoopControl]

/-- The world after an enumeration that never trips the gate: the devices
delivered with `isLast = 0` reach the business logic, the closing callback with
a negative `isLast` changes nothing. -/
theorem pumpAll_negative_enumeration (isLast : Int) (hneg : isLast < 0)
    (i : Option pa_sink_info) (devices : List pa_sink_info) (sched : List PumpStep)
    (hs : sched.map PumpStep.events
      = devices.map (fun d => [Event.sinkInfo (some d) 0]) ++ [[Event.sinkInfo i isLast]])
    (w : World) :
    pumpAll sched w
      = { w with businessLogic :=
            w.businessLogic ++ devices.map (fun d => BusinessLogicPoint.templateSink (some d)) } := by
  induction devices generalizing sched w with
  | nil =>
    rcases sched with _ | ⟨s, tl⟩
    · simp at hs
    · simp only [List.map_cons, List.map_nil, List.nil_append, List.cons.injEq,
        List.map_eq_nil_iff] at hs
      obtain ⟨hev, rfl⟩ := hs
      have hit : (pa_mainloop_iterate s w).1 = w := by
        simp [pa_mainloop_iterate, hev, dispatchAll, Event.dispatch, setOutputDevicesCallback,
          deviceCallback, getIsLastMeaning_neg hneg]
      rw [pumpAll_cons, hit, pumpAll_nil]
      simp
  | cons d ds ih =>
    rcases sched with _ | ⟨s, tl⟩
    · simp at hs
    · simp only [List.map_cons, List.cons_append, List.cons.injEq] at hs
      have hit : (pa_mainloop_iterate s w).1
          = reachBusinessLogic (.templateSink (some d)) w := by
        simp [pa_mainloop_iterate, hs.1, dispatchAll, Event.dispatch, setOutputDevicesCallback,
          deviceCallback, getIsLastMeaning_zero]
      rw [pumpAll_cons, hit, ih tl hs.2 (reachBusinessLogic (.templateSink (some d)) w)]
      simp [reachBusinessLogic]

/-! ## The claims -/

/-- C1: for every integer `isLast`, `getIsLastMeaning` returns `Error` exactly
when `isLast < 0`, `RealDevice` exactly when `isLast = 0`, and
`PreviousDeviceWasLastReal` exactly when `isLast > 0`. -/
theorem getIsLastMeaning_classifies (isLast : Int) :
    (getIsLastMeaning isLast = .Error ↔ isLast < 0) ∧
    (getIsLastMeaning isLast = .RealDevice ↔ isLast = 0) ∧
    (getIsLastMeaning isLast = .PreviousDeviceWasLastReal ↔ isLast > 0) := by
  rcases lt_trichotomy isLast 0 with h | h | h
  · have h1 : ¬ isLast = 0 := by omega
    have h2 : ¬ isLast > 0 := by omega
    simp [getIsLastMeaning_neg h, h, h1, h2]
  · subst h
    simp [getIsLastMeaning_zero]
  · have h1 : ¬ isLast = 0 := by omega
    have h2 : ¬ isLast < 0 := by omega
    simp [getIsLastMeaning_pos h, h, h1, h2]

/-- C2: when the pump delivers one sink callback per iteration, first the `n`
devices with `isLast = 0` in order and then one terminal callback with
`isLast > 0`, the driver started at `Run` returns after exactly these `n + 1`
steps (whatever steps `extra` would follow are left untaken), the business
logic of the sink instantiation has been reached once per device in emission
order and not for the terminal callback, and the gate is `Run` on return. -/
theorem customPulseLoop_enumerates (devices : List pa_sink_info)
    (terminal : Option pa_sink_info) (k : Int) (hk : 0 < k)
    (sched extra : List PumpStep)
    (hs : sched.map PumpStep.events
      = devices.map (fun d => [Event.sinkInfo (some d) 0]) ++ [[Event.sinkInfo terminal k]])
    (w : World) (hw : w.loopControl = .Run) :
    sched.length = devices.length + 1 ∧
    customPulseLoop w (sched ++ extra) = some
      ({ loopControl := .Run,
         gateWrites := w.gateWrites ++ [⟨.callback, .Stop⟩, ⟨.driver, .Run⟩],
         businessLogic :=
           w.businessLogic ++ devices.map (fun d => BusinessLogicPoint.templateSink (some d)) },
       extra) := by
  constructor
  · have := congrArg List.length hs
    simpa using this
  · induction devices generalizing sched w with
    | nil =>
      rcases sched with _ | ⟨s, tl⟩
      · simp at hs
      · simp only [List.map_cons, List.map_nil, List.nil_append, List.cons.injEq,
          List.map_eq_nil_iff] at hs
        obtain ⟨hev, rfl⟩ := hs
        rw [List.singleton_append, customPulseLoop_of_run w s extra hw]
        have hit : (pa_mainloop_iterate s w).1 = setLoopControl .callback .Stop w := by
          simp [pa_mainloop_iterate, hev, dispatchAll, Event.dispatch, setOutputDevicesCallback,
            deviceCallback, getIsLastMeaning_pos hk]
        rw [hit, customPulseLoop_of_stop _ _ rfl]
        simp [setLoopControl]
    | cons d ds ih =>
      rcases sched with _ | ⟨s, tl⟩
      · simp at hs
      · simp only [List.map_cons, List.cons_append, List.cons.injEq] at hs
        rw [List.cons_append, customPulseLoop_of_run w s (tl ++ extra) hw]
        have hit : (pa_mainloop_iterate s w).1
            = reachBusinessLogic (.templateSink (some d)) w := by
          simp [pa_mainloop_iterate, hs.1, dispatchAll, Event.dispatch, setOutputDevicesCallback,
            deviceCallback, getIsLastMeaning_zero]
        rw [hit, ih tl hs.2 (reachBusinessLogic (.templateSink (some d)) w) hw]
        simp [reachBusinessLogic]

/-- Witness for C2: two sinks, "Speakers" and "HDMI", then the terminal callback. -/
theorem customPulseLoop_enumerates_witness :
    customPulseLoop World.initial
      [⟨[.sinkInfo (some ⟨"speakers", 0, [("device.description", "Speakers")]⟩) 0], 1⟩,
       ⟨[.sinkInfo (some ⟨"hdmi", 1, [("device.description", "HDMI")]⟩) 0], 1⟩,
       ⟨[.sinkInfo none 1], 1⟩]
    = some
      ({ loopControl := .Run,
         gateWrites := [⟨.callback, .Stop⟩, ⟨.driver, .Run⟩],
         businessLogic :=
           [.templateSink (some ⟨"speakers", 0, [("device.description", "Speakers")]⟩),
            .templateSink (some ⟨"hdmi", 1, [("device.description", "HDMI")]⟩)] },
       []) :=
  (customPulseLoop_enumerates
    [⟨"speakers", 0, [("device.description", "Speakers")]⟩,
     ⟨"hdmi", 1, [("device.description", "HDMI")]⟩]
    none 1 (by decide)
    [⟨[.sinkInfo (some ⟨"speakers", 0, [("device.description", "Speakers")]⟩) 0], 1⟩,
     ⟨[.sinkInfo (some ⟨"hdmi", 1, [("device.description", "HDMI")]⟩) 0], 1⟩,
     ⟨[.sinkInfo none 1], 1⟩]
    [] rfl World.initial rfl).2

/-- C3, as stated, fails: the sink callback invoked with `isLast = -1` while the
gate is `Run` leaves the gate at `Run`, writes nothing to it, and a driver
whose pump delivers just this callback never returns. -/
theorem setOutputDevicesCallback_negative_counterexample :
    (setOutputDevicesCallback none (-1) World.initial).loopControl = .Run ∧
    (setOutputDevicesCallback none (-1) World.initial).loopControl ≠ .Stop ∧
    (setOutputDevicesCallback none (-1) World.initial).gateWrites = [] ∧
    customPulseLoop World.initial [⟨[.sinkInfo none (-1)], 1⟩] = none := by
  decide

/-- C3, amended: for every sink callback invocation with a negative `isLast`
(`setOutputDevicesCallback`, the templated `deviceCallback` at either type) and
every world it is invoked in, whatever the gate is, the callback returns with
the world as it found it: the gate keeps its value, nothing is written to it
and the business logic is not reached.  So an enumeration of real devices
ended by a negative sentinel never trips the gate (only the business logic of
the real devices is added to the world), and the driver started at `Run` does
not return on it. -/
theorem setOutputDevicesCallback_negative_is_silent (isLast : Int) (hneg : isLast < 0) :
    (∀ (i : Option pa_sink_info) (v : World), setOutputDevicesCallback i isLast v = v) ∧
    (∀ (ptr : DeviceInfoPtr) (v : World), deviceCallback ptr isLast v = v) ∧
    (∀ (i : Option pa_sink_info) (devices : List pa_sink_info) (sched : List PumpStep)
        (w : World),
      sched.map PumpStep.events
        = devices.map (fun d => [Event.sinkInfo (some d) 0]) ++ [[Event.sinkInfo i isLast]] →
      pumpAll sched w
        = { w with businessLogic :=
              w.businessLogic
                ++ devices.map (fun d => BusinessLogicPoint.templateSink (some d)) } ∧
      (pumpAll sched w).gateWrites = w.gateWrites ∧
      (pumpAll sched w).loopControl = w.loopControl ∧
      (w.loopControl = .Run → customPulseLoop w sched = none)) := by
  have hsilent : ∀ (p : DeviceInfoPtr) (v : World), deviceCallback p isLast v = v := by
    intro p v
    simp [deviceCallback, getIsLastMeaning_neg hneg]
  refine ⟨fun i v => hsilent (.sink i) v, hsilent, ?_⟩
  intro i devices sched w hs
  have hpump := pumpAll_negative_enumeration isLast hneg i devices sched hs w
  refine ⟨hpump, by rw [hpump], by rw [hpump], ?_⟩
  intro hw
  apply customPulseLoop_quiet sched w _ hw
  intro s hsmem e he v
  have hmem : s.events ∈ sched.map PumpStep.events := List.mem_map_of_mem _ hsmem
  rw [hs] at hmem
  rcases List.mem_append.mp hmem with h1 | h1
  · obtain ⟨d, _, hd⟩ := List.mem_map.mp h1
    rw [← hd] at he
    have hed : e = Event.sinkInfo (some d) 0 := by simpa using he
    rw [hed]
    simp [Event.dispatch, setOutputDevicesCallback, deviceCallback, getIsLastMeaning_zero,
      reachBusinessLogic]
  · have hse : s.events = [Event.sinkInfo i isLast] := by simpa using h1
    rw [hse] at he
    have hei : e = Event.sinkInfo i isLast := by simpa using he
    rw [hei]
    simp [Event.dispatch, setOutputDevicesCallback, hsilent]

/-- Witness for C3 (amended): the sentinel `-1` arriving with the gate at `Run`
and with the gate at `Stop`, and the enumeration of one sink "Speakers" closed
by the sentinel `-1`. -/
theorem setOutputDevicesCallback_negative_is_silent_witness :
    setOutputDevicesCallback none (-1) World.initial = World.initial ∧
    setOutputDevicesCallback none (-1) (setLoopControl .callback .Stop World.initial)
      = setLoopControl .callback .Stop World.initial ∧
    deviceCallback (.source none) (-1) (setLoopControl .callback .Stop World.initial)
      = setLoopControl .callback .Stop World.initial ∧
    pumpAll [⟨[.sinkInfo (some ⟨"speakers", 0, []⟩) 0], 1⟩, ⟨[.sinkInfo none (-1)], 1⟩]
        World.initial
      = { World.initial with
            businessLogic := [.templateSink (some ⟨"speakers", 0, []⟩)] } ∧
    customPulseLoop World.initial
      [⟨[.sinkInfo (some ⟨"speakers", 0, []⟩) 0], 1⟩, ⟨[.sinkInfo none (-1)], 1⟩] = none :=
  ⟨(setOutputDevicesCallback_negative_is_silent (-1) (by decide)).1 none World.initial,
   (setOutputDevicesCallback_negative_is_silent (-1) (by decide)).1 none
     (setLoopControl .callback .Stop World.initial),
   (setOutputDevicesCallback_negative_is_silent (-1) (by decide)).2.1 (.source none)
     (setLoopControl .callback .Stop World.initial),
   ((setOutputDevicesCallback_negative_is_silent (-1) (by decide)).2.2 none
     [⟨"speakers", 0, []⟩]
     [⟨[.sinkInfo (some ⟨"speakers", 0, []⟩) 0], 1⟩, ⟨[.sinkInfo none (-1)], 1⟩]
     World.initial rfl).1,
   ((setOutputDevicesCallback_negative_is_silent (-1) (by decide)).2.2 none
     [⟨"speakers", 0, []⟩]
     [⟨[.sinkInfo (some ⟨"speakers", 0, []⟩) 0], 1⟩, ⟨[.sinkInfo none (-1)], 1⟩]
     World.initial rfl).2.2.2 rfl⟩

/-- C4: whatever the gate was before the call, `stateCallbackFunction` leaves
`loopControl` unchanged when the observed state is connecting, authorizing,
setting-name or unconnected, and sets it to `Stop` when the state is ready. -/
theorem stateCallbackFunction_progress_and_ready (w : World) :
    (stateCallbackFunction .PA_CONTEXT_CONNECTING w).loopControl = w.loopControl ∧
    (stateCallbackFunction .PA_CONTEXT_AUTHORIZING w).loopControl = w.loopControl ∧
    (stateCallbackFunction .PA_CONTEXT_SETTING_NAME w).loopControl = w.loopControl ∧
    (stateCallbackFunction .PA_CONTEXT_UNCONNECTED w).loopControl = w.loopControl ∧
    (stateCallbackFunction .PA_CONTEXT_READY w).loopControl = .Stop :=
  ⟨rfl, rfl, rfl, rfl, rfl⟩

/-- C5, as stated, fails: with the gate at `Run`, the state callback observing
failed (or terminated) leaves the gate at `Run`, and a driver whose pump
delivers just that state change never returns. -/
theorem stateCallbackFunction_adverse_counterexample :
    (stateCallbackFunction .PA_CONTEXT_FAILED World.initial).loopControl = .Run ∧
    (stateCallbackFunction .PA_CONTEXT_TERMINATED World.initial).loopControl = .Run ∧
    (stateCallbackFunction .PA_CONTEXT_FAILED World.initial).loopControl ≠ .Stop ∧
    (stateCallbackFunction .PA_CONTEXT_TERMINATED World.initial).loopControl ≠ .Stop ∧
    customPulseLoop World.initial
      [⟨[.stateChange .PA_CONTEXT_CONNECTING], 1⟩, ⟨[.stateChange .PA_CONTEXT_FAILED], 1⟩]
      = none := by
  decide

/-- C5, amended: when the observed context state is failed or terminated,
`stateCallbackFunction` returns silently in every world, whatever the gate is:
`loopControl` (and the whole world, so also the record of gate writes) is left
as it was.  A driver started at `Run` whose pump delivers only such state
changes does not return. -/
theorem stateCallbackFunction_adverse_is_silent (observed : pa_context_state_t)
    (hobs : observed = .PA_CONTEXT_FAILED ∨ observed = .PA_CONTEXT_TERMINATED) :
    (∀ v : World, stateCallbackFunction observed v = v) ∧
    (∀ v : World, (stateCallbackFunction observed v).loopControl = v.loopControl) ∧
    (∀ (w : World) (sched : List PumpStep),
      (∀ s ∈ sched, ∀ e ∈ s.events,
        e = Event.stateChange .PA_CONTEXT_FAILED ∨
        e = Event.stateChange .PA_CONTEXT_TERMINATED) →
      w.loopControl = .Run →
      customPulseLoop w sched = none) := by
  have h1 : ∀ v : World, stateCallbackFunction observed v = v := by
    intro v
    rcases hobs with rfl | rfl <;> rfl
  refine ⟨h1, fun v => by rw [h1 v], ?_⟩
  intro w sched hs hw
  apply customPulseLoop_quiet sched w _ hw
  intro s hsmem e he v
  rcases hs s hsmem e he with rfl | rfl <;> rfl

/-- Witness for C5 (amended): failed observed with the gate at `Run` and with
the gate at `Stop`, and the connect sequence failed, terminated. -/
theorem stateCallbackFunction_adverse_is_silent_witness :
    stateCallbackFunction .PA_CONTEXT_FAILED World.initial = World.initial ∧
    stateCallbackFunction .PA_CONTEXT_FAILED (setLoopControl .callback .Stop World.initial)
      = setLoopControl .callback .Stop World.initial ∧
    (stateCallbackFunction .PA_CONTEXT_FAILED
      (setLoopControl .callback .Stop World.initial)).loopControl = .Stop ∧
    customPulseLoop World.initial
      [⟨[.stateChange .PA_CONTEXT_FAILED], -1⟩, ⟨[.stateChange .PA_CONTEXT_TERMINATED], 0⟩]
      = none :=
  ⟨(stateCallbackFunction_adverse_is_silent .PA_CONTEXT_FAILED (Or.inl rfl)).1 World.initial,
   (stateCallbackFunction_adverse_is_silent .PA_CONTEXT_FAILED (Or.inl rfl)).1
     (setLoopControl .callback .Stop World.initial),
   (stateCallbackFunction_adverse_is_silent .PA_CONTEXT_FAILED (Or.inl rfl)).2.1
     (setLoopControl .callback .Stop World.initial),
   (stateCallbackFunction_adverse_is_silent .PA_CONTEXT_FAILED (Or.inl rfl)).2.2 World.initial
     [⟨[.stateChange .PA_CONTEXT_FAILED], -1⟩, ⟨[.stateChange .PA_CONTEXT_TERMINATED], 0⟩]
     (by decide) rfl⟩

/-- C6: every run of `customPulseLoop` that starts with the gate at `Run` and
returns has taken at least one step of the pump in which a callback found the
gate at `Run` and left it at `Stop` (the last step taken), and the gate is
`Run` at the moment of return. -/
theorem customPulseLoop_postcondition (w w2 : World) (sched rest : List PumpStep)
    (hw : w.loopControl = .Run) (hret : customPulseLoop w sched = some (w2, rest)) :
    (∃ pre s evs1 e evs2,
      sched = pre ++ s :: rest ∧ s.events = evs1 ++ e :: evs2 ∧
      (dispatchAll evs1 (pumpAll pre w)).loopControl = .Run ∧
      (e.dispatch (dispatchAll evs1 (pumpAll pre w))).loopControl = .Stop) ∧
    w2.loopControl = .Run := by
  obtain ⟨pre, s, he, h1, h2, h3⟩ := customPulseLoop_split sched w w2 rest hw hret
  obtain ⟨evs1, e, evs2, hev, h4, h5⟩ := dispatchAll_trip s.events (pumpAll pre w) h1 h2
  exact ⟨⟨pre, s, evs1, e, evs2, he, hev, h4, h5⟩, by rw [h3]; rfl⟩

/-- Witness for C6: an idle step, then the step in which the context gets ready. -/
theorem customPulseLoop_postcondition_witness :
    (∃ pre s evs1 e evs2,
      [(⟨[], 0⟩ : PumpStep), ⟨[.stateChange .PA_CONTEXT_CONNECTING, .stateChange .PA_CONTEXT_READY], 2⟩]
        = pre ++ s :: [] ∧ s.events = evs1 ++ e :: evs2 ∧
      (dispatchAll evs1 (pumpAll pre World.initial)).loopControl = .Run ∧
      (e.dispatch (dispatchAll evs1 (pumpAll pre World.initial))).loopControl = .Stop) ∧
    (setLoopControl .driver .Run (setLoopControl .callback .Stop World.initial)).loopControl
      = .Run :=
  customPulseLoop_postcondition World.initial
    (setLoopControl .driver .Run (setLoopControl .callback .Stop World.initial))
    [⟨[], 0⟩, ⟨[.stateChange .PA_CONTEXT_CONNECTING, .stateChange .PA_CONTEXT_READY], 2⟩] []
    rfl (by decide)

/-- C7, as stated, fails: the pump reports `-1` in the first iteration, and
the driver neither stops nor reports anything: it takes the second step as
well and returns normally, exactly as it does when the pump reports `0`. -/
theorem customPulseLoop_pump_failure_counterexample :
    (pa_mainloop_iterate ⟨[], -1⟩ World.initial).2 < 0 ∧
    customPulseLoop World.initial [⟨[], -1⟩, ⟨[.sinkInfo none 1], 1⟩]
      = some (⟨.Run, [⟨.callback, .Stop⟩, ⟨.driver, .Run⟩], []⟩, []) ∧
    customPulseLoop World.initial [⟨[], -1⟩, ⟨[.sinkInfo none 1], 1⟩]
      = customPulseLoop World.initial [⟨[], 0⟩, ⟨[.sinkInfo none 1], 1⟩] := by
  decide

/-- C7, amended: when `pa_mainloop_iterate` reports a negative result during
an iteration of `customPulseLoop`, the driver discards it and goes on pumping
as long as the gate is `Run`; nothing is surfaced to the caller, and the run is
the same whatever integers the pump reports. -/
theorem customPulseLoop_ignores_pump_result (s : PumpStep) (rest : List PumpStep) (w : World)
    (hneg : s.result < 0) (hw : w.loopControl = .Run)
    (f : PumpStep → Int) (sched : List PumpStep) :
    (pa_mainloop_iterate s w).2 < 0 ∧
    customPulseLoop w (s :: rest) = customPulseLoop (pa_mainloop_iterate s w).1 rest ∧
    customPulseLoop w (withResults f sched)
      = (customPulseLoop w sched).map (fun r => (r.1, withResults f r.2)) :=
  ⟨hneg, customPulseLoop_of_run w s rest hw, customPulseLoop_withResults f sched w⟩

/-- Witness for C7 (amended): the pump reports `-1`, then delivers the terminal
sink callback. -/
theorem customPulseLoop_ignores_pump_result_witness :
    (pa_mainloop_iterate ⟨[], -1⟩ World.initial).2 < 0 ∧
    customPulseLoop World.initial [⟨[], -1⟩, ⟨[.sinkInfo none 1], 1⟩]
      = customPulseLoop (pa_mainloop_iterate ⟨[], -1⟩ World.initial).1 [⟨[.sinkInfo none 1], 1⟩] ∧
    customPulseLoop World.initial
        (withResults (fun _ => -1) [⟨[], 0⟩, ⟨[.sinkInfo none 1], 1⟩])
      = (customPulseLoop World.initial [⟨[], 0⟩, ⟨[.sinkInfo none 1], 1⟩]).map
          (fun r => (r.1, withResults (fun _ => -1) r.2)) :=
  customPulseLoop_ignores_pump_result ⟨[], -1⟩ [⟨[.sinkInfo none 1], 1⟩] World.initial
    (by decide) rfl (fun _ => -1) [⟨[], 0⟩, ⟨[.sinkInfo none 1], 1⟩]

/-- C8: for every property list `p`, `getDeviceName p` returns the literal
"ERROR" when `p` has no entry for the key "device.description", and otherwise
exactly the string stored under that key; in both cases it returns a string
(it never fails). -/
theorem getDeviceName_reads_description (p : pa_proplist) :
    getDeviceName p
      = some (match p.lookup "device.description" with
              | none => "ERROR"
              | some v => v) := by
  simp only [getDeviceName, pa_proplist_contains, pa_proplist_gets]
  generalize List.lookup "device.description" p = r
  cases r <;> simp

/-- C9: the transitions of the gate are partitioned by actor.  A callback
(`stateCallbackFunction`, `setOutputDevicesCallback`, the templated
`deviceCallback`, the overload for source records) that finds the gate at
`Stop` leaves it at `Stop`; and in a run of `customPulseLoop` that returns, the
writes to the gate are callback writes of `Stop` followed by the one write of
the driver, the reset to `Run` after the loop. -/
theorem gate_transitions_by_actor (w : World) (hstop : w.loopControl = .Stop)
    (w0 w2 : World) (sched rest : List PumpStep)
    (hret : customPulseLoop w0 sched = some (w2, rest)) :
    (∀ observed, (stateCallbackFunction observed w).loopControl = .Stop) ∧
    (∀ i isLast, (setOutputDevicesCallback i isLast w).loopControl = .Stop) ∧
    (∀ ptr isLast, (deviceCallback ptr isLast w).loopControl = .Stop) ∧
    (∀ i isLast, (deviceCallback_pa_source_info i isLast w).loopControl = .Stop) ∧
    (∃ mid, w2.gateWrites = w0.gateWrites ++ mid ++ [⟨.driver, .Run⟩] ∧
      ∀ g ∈ mid, g = (⟨.callback, .Stop⟩ : GateWrite)) := by
  refine ⟨?_, ?_, ?_, ?_, ?_⟩
  · intro observed
    exact dispatch_keeps_stop (.stateChange observed) w hstop
  · intro i isLast
    exact dispatch_keeps_stop (.sinkInfo i isLast) w hstop
  · intro ptr isLast
    simp only [deviceCallback]
    split
    · rfl
    · split
      · exact hstop
      · cases ptr <;> exact hstop
  · intro i isLast
    simp only [deviceCallback_pa_source_info]
    split
    · rfl
    · split
      · exact hstop
      · exact hstop
  · rcases loopControl_cases w0.loopControl with hr | hs
    · obtain ⟨pre, s, he, _, _, h3⟩ := customPulseLoop_split sched w0 w2 rest hr hret
      obtain ⟨mid, hm, hmid⟩ := pumpAll_gateWrites (pre ++ [s]) w0
      refine ⟨mid, ?_, hmid⟩
      have e1 : (pa_mainloop_iterate s (pumpAll pre w0)).1 = pumpAll (pre ++ [s]) w0 := by
        rw [pumpAll_append]; rfl
      rw [h3, e1]
      show (pumpAll (pre ++ [s]) w0).gateWrites ++ [⟨.driver, .Run⟩] = _
      rw [hm]
    · rw [customPulseLoop_of_stop w0 sched hs] at hret
      simp only [Option.some.injEq, Prod.mk.injEq] at hret
      refine ⟨[], ?_, by simp⟩
      rw [← hret.1]
      simp [setLoopControl]

/-- Witness for C9: a tripped world for the callbacks, and the connect run
connecting, ready for the driver. -/
theorem gate_transitions_by_actor_witness :
    (∀ observed,
      (stateCallbackFunction observed (setLoopControl .callback .Stop World.initial)).loopControl
        = .Stop) ∧
    (∀ i isLast,
      (setOutputDevicesCallback i isLast (setLoopControl .callback .Stop World.initial)).loopControl
        = .Stop) ∧
    (∀ ptr isLast,
      (deviceCallback ptr isLast (setLoopControl .callback .Stop World.initial)).loopControl
        = .Stop) ∧
    (∀ i isLast,
      (deviceCallback_pa_source_info i isLast
        (setLoopControl .callback .Stop World.initial)).loopControl = .Stop) ∧
    (∃ mid,
      (setLoopControl .driver .Run (setLoopControl .callback .Stop World.initial)).gateWrites
        = World.initial.gateWrites ++ mid ++ [⟨.driver, .Run⟩] ∧
      ∀ g ∈ mid, g = (⟨.callback, .Stop⟩ : GateWrite)) :=
  gate_transitions_by_actor (setLoopControl .callback .Stop World.initial) rfl
    World.initial (setLoopControl .driver .Run (setLoopControl .callback .Stop World.initial))
    [⟨[.stateChange .PA_CONTEXT_CONNECTING], 1⟩, ⟨[.stateChange .PA_CONTEXT_READY], 1⟩] []
    (by decide)

/-- C10, the code at the failing input `isLast = -1` with the gate at `Run`:
the templated `deviceCallback` (at `pa_sink_info`) returns without reaching its
business logic, the overload for `pa_source_info` falls through its empty
error branch and reaches the business logic with the null record; the gate
is left at `Run` by both. -/
theorem deviceCallback_overload_runs_business_logic_on_error :
    (deviceCallback (.sink none) (-1) World.initial).businessLogic = [] ∧
    (deviceCallback_pa_source_info none (-1) World.initial).businessLogic
      = [.overloadSource none] ∧
    (deviceCallback (.sink none) (-1) World.initial).loopControl = .Run ∧
    (deviceCallback_pa_source_info none (-1) World.initial).loopControl = .Run := by
  decide

end PulseExample
